import Mathlib

/-!
Shallow embedding of `app/utils/session.server.ts` of the remix-jokes
repository: session-based authentication (register, login, cookie session
issuance and teardown, redirect-based access control), together with models
of its external collaborators (bcryptjs, the Prisma user store, and the
Remix cookie-session storage) at the granularity the module uses them.
-/

namespace RemixJokes

/-- JavaScript values that a session field can hold.  The module only ever
stores strings, but `session.get` is untyped, so the embedding keeps the
other primitive shapes to express the `typeof userId !== "string"` check. -/
inductive SV where
  | vStr : String → SV
  | vNum : Int → SV
  | vBool : Bool → SV
  | vNull : SV
deriving DecidableEq, Repr

/-- Decoded content of a cookie session: a key-value map, as exposed by
`createCookieSessionStorage`.  The signing and encryption of the cookie is
out of scope (spec section 1); the embedding works with the decoded data. -/
def Session : Type := List (String × SV)

instance : DecidableEq Session := by
  unfold Session
  infer_instance

/-- Model of `session.get(key)`: the value stored under `key`, if any. -/
def sessionGet (s : Session) (k : String) : Option SV :=
  (List.find? (fun p => p.1 == k) s).map (fun p => p.2)

/-- Model of `session.set(key, value)`. -/
def sessionSet (s : Session) (k : String) (v : SV) : Session :=
  (k, v) :: List.filter (fun p => p.1 != k) s

/-- A `Set-Cookie` header produced by the session storage: either a commit
of session data, or the expired cookie produced by `destroySession`. -/
inductive SetCookie where
  | commit : Session → SetCookie
  | destroy : SetCookie
deriving DecidableEq

/-- An HTTP response as this module builds them: a redirect status, a
`Location` header and an optional `Set-Cookie` header. -/
structure Response where
  status : Nat
  location : String
  setCookie : Option SetCookie
deriving DecidableEq

/-- Model of `redirect(location, { headers })` from `@remix-run/node`:
a 302 response with the given `Location` and optional `Set-Cookie`. -/
def redirect (location : String) (setCookie : Option SetCookie) : Response :=
  { status := 302, location := location, setCookie := setCookie }

/-- The session a browser presents after honouring a `Set-Cookie` header:
a committed session round-trips; a destroyed (expired) cookie is dropped,
so the next request carries no session cookie. -/
def applySetCookie : SetCookie → Option Session
  | SetCookie.commit s => some s
  | SetCookie.destroy => none

/-- An incoming HTTP request at the granularity the module reads it:
`new URL(request.url).pathname` and the decoded session cookie, if the
request carries one. -/
structure Request where
  pathname : String
  cookie : Option Session
deriving DecidableEq

/-- The request a client makes after receiving `resp`, honouring its
`Set-Cookie` header. -/
def carryCookie (resp : Response) (pathname : String) : Request :=
  { pathname := pathname, cookie := resp.setCookie.bind applySetCookie }

/-- Model of `getUserSession(request)`: `storage.getSession` on the
`Cookie` header of the request yields the decoded session, or a fresh empty
session when the request carries none. -/
def getUserSession (request : Request) : Session :=
  request.cookie.getD []

/-- Model of `storage.destroySession(session)`: the expired cookie. -/
def destroySession (_session : Session) : SetCookie :=
  SetCookie.destroy

/-- Model of the external bcryptjs primitive `bcrypt.hash(password, 10)`
(spec section 4.1): an injective digest function; the salt and cost factor
are abstracted into the fixed tag. -/
def bcryptHash (password : String) : String :=
  "$2a$10$" ++ password

/-- Model of the external bcryptjs primitive `bcrypt.compare(password,
digest)` (spec section 4.1): true exactly when the digest is the hash of
the password, matching the hash-verify round-trip of the spec (section 8). -/
def bcryptCompare (password digest : String) : Bool :=
  bcryptHash password == digest

/-- The `User` entity of the Prisma store (spec section 3). -/
structure User where
  id : String
  username : String
  passwordHash : String
deriving DecidableEq, Repr

/-- The identity shape `{ id, username }` returned by `register`, `login`
and `getUser`. -/
structure UserView where
  id : String
  username : String
deriving DecidableEq, Repr

/-- Projection of a stored `User` onto the returned `{ id, username }`
shape; it drops the `passwordHash` field. -/
def toView (u : User) : UserView :=
  { id := u.id, username := u.username }

/-- Store-level failure of `db.user.create`: the unique constraint on
`username` (spec sections 3 and 7). -/
inductive DbError where
  | uniqueViolation : DbError
deriving DecidableEq

/-- The Prisma user store, with a counter supplying the ids the store
generates for created records. -/
structure DbState where
  users : List User
  nextId : Nat
deriving DecidableEq

/-- The id the store generates for the next created record. -/
def freshId (st : DbState) : String :=
  "uid" ++ toString st.nextId

/-- Model of `db.user.create({ data: { passwordHash, username } })`:
inserts a new record with a generated id, or fails with a unique-constraint
violation when the username is already taken. -/
def userCreate (username passwordHash : String) (st : DbState) :
    Except DbError (User × DbState) :=
  if st.users.any (fun u => u.username == username) then
    Except.error DbError.uniqueViolation
  else
    let u : User := { id := freshId st, username := username, passwordHash := passwordHash }
    Except.ok (u, { users := u :: st.users, nextId := st.nextId + 1 })

/-- The login form `{ password, username }`. -/
structure LoginForm where
  password : String
  username : String
deriving DecidableEq

/-- Embedding of `register({ password, username })`: hashes the password,
inserts the new `User`, and returns `{ id: user.id, username }`. -/
def register (form : LoginForm) (st : DbState) :
    Except DbError (UserView × DbState) :=
  let passwordHash := bcryptHash form.password
  match userCreate form.username passwordHash st with
  | Except.error e => Except.error e
  | Except.ok (user, st') =>
      Except.ok ({ id := user.id, username := form.username }, st')

/-- Model of `db.user.findUnique({ where: { username } })`. -/
def findUniqueByUsername (st : DbState) (username : String) : Option User :=
  List.find? (fun u => u.username == username) st.users

/-- Embedding of `login({ password, username })`: looks the user up by
username, returns `null` when absent, compares the password with the
stored hash, returns `null` on mismatch, else `{ id: user.id, username }`.
The store is threaded through unchanged: `findUnique` only reads it. -/
def login (form : LoginForm) (st : DbState) : Option UserView × DbState :=
  match findUniqueByUsername st form.username with
  | none => (none, st)
  | some user =>
      let isCorrectPassword := bcryptCompare form.password user.passwordHash
      if !isCorrectPassword then (none, st)
      else (some { id := user.id, username := form.username }, st)

/-- Uppercase hexadecimal digit, as `URLSearchParams` emits them. -/
def hexDigitChar (n : Nat) : Char :=
  if n < 10 then Char.ofNat (48 + n) else Char.ofNat (55 + n)

/-- Percent-encoding of one byte under the
`application/x-www-form-urlencoded` rules used by `URLSearchParams`:
alphanumerics and `* - . _` pass through, space becomes `+`, every other
byte becomes `%XX`. -/
def encodeByteNat (n : Nat) : String :=
  if (65 ≤ n ∧ n ≤ 90) ∨ (97 ≤ n ∧ n ≤ 122) ∨ (48 ≤ n ∧ n ≤ 57) ∨
      n = 42 ∨ n = 45 ∨ n = 46 ∨ n = 95 then
    String.singleton (Char.ofNat n)
  else if n = 32 then "+"
  else "%" ++ String.singleton (hexDigitChar (n / 16)) ++
    String.singleton (hexDigitChar (n % 16))

/-- UTF-8 bytes of a character, as natural numbers. -/
def utf8Bytes (c : Char) : List Nat :=
  let n := c.toNat
  if n < 128 then [n]
  else if n < 2048 then [192 + n / 64, 128 + n % 64]
  else if n < 65536 then
    [224 + n / 4096, 128 + (n / 64) % 64, 128 + n % 64]
  else
    [240 + n / 262144, 128 + (n / 4096) % 64, 128 + (n / 64) % 64, 128 + n % 64]

/-- Form-urlencoding of a string, byte by byte over its UTF-8 encoding,
as `URLSearchParams` serialises names and values. -/
def formUrlEncode (s : String) : String :=
  String.join (s.data.map (fun c => String.join ((utf8Bytes c).map encodeByteNat)))

/-- Model of `new URLSearchParams(pairs).toString()`: each name and value
form-urlencoded, pairs joined with `&`. -/
def searchParamsToString : List (String × String) → String
  | [] => ""
  | [p] => formUrlEncode p.1 ++ "=" ++ formUrlEncode p.2
  | p :: rest =>
      formUrlEncode p.1 ++ "=" ++ formUrlEncode p.2 ++ "&" ++
        searchParamsToString rest

/-- Embedding of `getUserId(request)`: reads the session, extracts
`userId`, and returns `null` when `!userId || typeof userId !== "string"`.
The only falsy string is `""`, so the guard nulls out exactly the absent
values, the non-string values, and the empty string. -/
def getUserId (request : Request) : Option String :=
  let session := getUserSession request
  let userId := sessionGet session "userId"
  match userId with
  | some (SV.vStr s) => if s == "" then none else some s
  | _ => none

/-- Embedding of `requiredUserId(request, redirectTo = new
URL(request.url).pathname)`: same guard as `getUserId`, but the failing
branch throws `redirect("/login?" + searchParams)` instead of returning
`null`; the throw is the `Except.error` channel. -/
def requiredUserId (request : Request)
    (redirectTo : String := request.pathname) : Except Response String :=
  let session := getUserSession request
  let userId := sessionGet session "userId"
  match userId with
  | some (SV.vStr s) =>
      if s == "" then
        Except.error (redirect
          ("/login?" ++ searchParamsToString [("redirectTo", redirectTo)]) none)
      else Except.ok s
  | _ =>
      Except.error (redirect
        ("/login?" ++ searchParamsToString [("redirectTo", redirectTo)]) none)

/-- Embedding of `createUserSession(userId, redirectTo)`: a fresh session
(`storage.getSession()` with no cookie), `session.set("userId", userId)`,
then a redirect whose `Set-Cookie` commits the session. -/
def createUserSession (userId : String) (redirectTo : String) : Response :=
  let session : Session := []
  let session := sessionSet session "userId" (SV.vStr userId)
  redirect redirectTo (some (SetCookie.commit session))

/-- Embedding of `logout(request)`: destroys the session of the request and
redirects to `/login` with the destroying `Set-Cookie`. -/
def logout (request : Request) : Response :=
  let session := getUserSession request
  redirect "/login" (some (destroySession session))

/-- Outcome of `getUser`: a normal return (`User | null`) or a thrown
response (`throw logout(request)`), the Remix redirect short-circuit. -/
inductive GetUserResult where
  | value : Option UserView → GetUserResult
  | thrown : Response → GetUserResult
deriving DecidableEq

/-- Whether an optional session value is a JavaScript string
(`typeof v === "string"`). -/
def isStringSV : Option SV → Bool
  | some (SV.vStr _) => true
  | _ => false

/-- Embedding of `getUser(request)`: resolves `userId` via `getUserId`
(returning `null` when it is not a string), loads the user by id with
`select: { id, username }`, throws `logout(request)` when the record is
missing, and otherwise returns the selected `{ id, username }`. -/
def getUser (request : Request) (st : DbState) : GetUserResult × DbState :=
  match getUserId request with
  | none => (GetUserResult.value none, st)
  | some userId =>
      match (List.find? (fun u => u.id == userId) st.users).map toView with
      | none => (GetUserResult.thrown (logout request), st)
      | some user => (GetUserResult.value (some user), st)

/-- An empty user store, for concrete instantiations. -/
def emptyStore : DbState := { users := [], nextId := 0 }

/-- A sample login form, for concrete instantiations. -/
def sampleForm : LoginForm := { password := "pw", username := "alice" }

/-- The record `register sampleForm emptyStore` creates. -/
def sampleUser : User :=
  { id := "uid0", username := "alice", passwordHash := "$2a$10$pw" }

/-- The store after `register sampleForm emptyStore`. -/
def sampleStore : DbState := { users := [sampleUser], nextId := 1 }

/-- The identity `register sampleForm emptyStore` returns. -/
def sampleView : UserView := { id := "uid0", username := "alice" }

/-- The location `"/login?" ++ searchParams` built by `requiredUserId`
for the single pair `("redirectTo", x)`, in normal form. -/
theorem loginRedirectLocation (x : String) :
    "/login?" ++ searchParamsToString [("redirectTo", x)] =
      "/login?redirectTo=" ++ formUrlEncode x := by
  show "/login?" ++ (formUrlEncode "redirectTo" ++ "=" ++ formUrlEncode x) = _
  have h : formUrlEncode "redirectTo" = "redirectTo" := by decide
  rw [h, ← String.append_assoc]
  congr 1

/-- C1: a request whose session holds a `userId` that matches no `User`
record makes `getUser` throw the logout redirect (302 to `/login` with the
session-destroying `Set-Cookie`), rather than return `null`. -/
theorem getUser_stale_session_forces_logout
    (r : Request) (st : DbState) (uid : String)
    (hid : getUserId r = some uid)
    (hmiss : ∀ u ∈ st.users, u.id ≠ uid) :
    getUser r st =
      (GetUserResult.thrown (redirect "/login" (some SetCookie.destroy)), st) := by
  have hfind : List.find? (fun u => u.id == uid) st.users = none := by
    rw [List.find?_eq_none]
    intro u hu
    simpa using hmiss u hu
  simp [getUser, hid, hfind, logout, destroySession]

theorem getUser_stale_session_forces_logout_witness :
    getUserId { pathname := "/p", cookie := some [("userId", SV.vStr "u1")] } =
        some "u1" ∧
    getUser { pathname := "/p", cookie := some [("userId", SV.vStr "u1")] }
        emptyStore =
      (GetUserResult.thrown (redirect "/login" (some SetCookie.destroy)),
        emptyStore) :=
  ⟨by decide,
    getUser_stale_session_forces_logout _ _ "u1" (by decide) (by simp [emptyStore])⟩

/-- C2: when `register` succeeds and returns an identity, `login` with the
same credentials on the resulting store returns the same identity. -/
theorem register_then_login_returns_registered_id
    (form : LoginForm) (st : DbState) (res : UserView) (st' : DbState)
    (h : register form st = Except.ok (res, st')) :
    (login form st').1 = some res := by
  unfold register userCreate at h
  by_cases hdup : st.users.any (fun u => u.username == form.username) = true
  · simp [hdup] at h
  · simp [hdup] at h
    obtain ⟨hres, hst'⟩ := h
    subst hst'
    simp [login, findUniqueByUsername, bcryptCompare, ← hres]

theorem register_then_login_returns_registered_id_witness :
    (login sampleForm sampleStore).1 = some sampleView :=
  register_then_login_returns_registered_id sampleForm emptyStore
    sampleView sampleStore rfl

/-- C3: `login` returns `null` when the username is unknown or the
password fails verification against the stored hash, and otherwise
returns the identity `{ id, username }`. -/
theorem login_null_iff_invalid_credentials
    (form : LoginForm) (st : DbState) :
    (findUniqueByUsername st form.username = none → (login form st).1 = none) ∧
    (∀ u, findUniqueByUsername st form.username = some u →
      (bcryptCompare form.password u.passwordHash = false →
        (login form st).1 = none) ∧
      (bcryptCompare form.password u.passwordHash = true →
        (login form st).1 = some { id := u.id, username := form.username })) := by
  refine ⟨fun h => by simp [login, h], fun u h => ⟨fun hc => ?_, fun hc => ?_⟩⟩
  · simp [login, h, hc]
  · simp [login, h, hc]

theorem login_null_iff_invalid_credentials_witness :
    (login { password := "pw", username := "ghost" } emptyStore).1 = none ∧
    (login { password := "wrong", username := "alice" } sampleStore).1 = none ∧
    (login sampleForm sampleStore).1 = some sampleView :=
  ⟨(login_null_iff_invalid_credentials
      { password := "pw", username := "ghost" } emptyStore).1 (by decide),
   ((login_null_iff_invalid_credentials
      { password := "wrong", username := "alice" } sampleStore).2
      sampleUser (by decide)).1 (by decide),
   ((login_null_iff_invalid_credentials sampleForm sampleStore).2
      sampleUser (by decide)).2 (by decide)⟩

/-- C4: `requiredUserId` on a request without a valid string `userId`
throws a redirect to `/login?redirectTo=<current path, url-encoded>`
(the path being the default `redirectTo`), and on a request with a valid
`userId` returns that id. -/
theorem requiredUserId_redirects_anonymous_or_returns_id (r : Request) :
    (getUserId r = none →
      requiredUserId r = Except.error
        (redirect ("/login?redirectTo=" ++ formUrlEncode r.pathname) none)) ∧
    (∀ uid, getUserId r = some uid → requiredUserId r = Except.ok uid) := by
  rw [← loginRedirectLocation]
  cases hv : sessionGet (getUserSession r) "userId" with
  | none => exact ⟨fun _ => by simp [requiredUserId, hv],
      fun uid h => by simp [getUserId, hv] at h⟩
  | some v =>
    cases v with
    | vStr s =>
      by_cases hs : s = ""
      · subst hs
        exact ⟨fun _ => by simp [requiredUserId, hv],
          fun uid h => by simp [getUserId, hv] at h⟩
      · refine ⟨fun h => ?_, fun uid h => ?_⟩
        · simp [getUserId, hv, hs] at h
        · simp [getUserId, hv, hs] at h
          subst h
          simp [requiredUserId, hv, hs]
    | vNum n => exact ⟨fun _ => by simp [requiredUserId, hv],
        fun uid h => by simp [getUserId, hv] at h⟩
    | vBool b => exact ⟨fun _ => by simp [requiredUserId, hv],
        fun uid h => by simp [getUserId, hv] at h⟩
    | vNull => exact ⟨fun _ => by simp [requiredUserId, hv],
        fun uid h => by simp [getUserId, hv] at h⟩

theorem requiredUserId_redirects_anonymous_or_returns_id_witness :
    requiredUserId { pathname := "/jokes/new", cookie := none } =
      Except.error (redirect ("/login?redirectTo=" ++
        formUrlEncode "/jokes/new") none) ∧
    requiredUserId { pathname := "/jokes/new", cookie := some [("userId", SV.vStr "u1")] } = Except.ok "u1" :=
  ⟨(requiredUserId_redirects_anonymous_or_returns_id
      { pathname := "/jokes/new", cookie := none }).1 (by decide),
   (requiredUserId_redirects_anonymous_or_returns_id
      { pathname := "/jokes/new", cookie := some [("userId", SV.vStr "u1")] }).2 "u1" (by decide)⟩

/-- C5 counterexample: for the empty-string `userId`, the cookie produced
by `createUserSession` does not round-trip — `getUserId` on the follow-up
request returns `null`, not the stored `userId`, because `""` is falsy. -/
theorem session_roundtrip_fails_for_empty_userId :
    getUserId (carryCookie (createUserSession "" "/dashboard") "/p") = none ∧
    getUserId (carryCookie (createUserSession "" "/dashboard") "/p") ≠
      some "" := by decide

/-- C5 (amended): for every non-empty `userId`, a request carrying the
cookie committed by `createUserSession(userId, redirectTo)` satisfies
`getUserId(request) = userId`. -/
theorem session_roundtrip_for_nonempty_userId
    (userId redirectTo pathname : String) (h : userId ≠ "") :
    getUserId (carryCookie (createUserSession userId redirectTo) pathname) =
      some userId := by
  simp [createUserSession, carryCookie, redirect, applySetCookie, getUserId,
    getUserSession, sessionSet, sessionGet, h]

theorem session_roundtrip_for_nonempty_userId_witness :
    ("alice" : String) ≠ "" ∧
    getUserId (carryCookie (createUserSession "alice" "/dashboard") "/p") =
      some "alice" :=
  ⟨by decide,
    session_roundtrip_for_nonempty_userId "alice" "/dashboard" "/p" (by decide)⟩

/-- C6: a request carrying the cookie produced by `logout` (which destroys
the session) yields `getUserId = null`. -/
theorem getUserId_after_logout_is_null (r : Request) (pathname : String) :
    getUserId (carryCookie (logout r) pathname) = none := rfl

/-- C7: `getUserId` returns `null` whenever the `userId` field of the session
is absent or not a string (and it is a total function: no exception). -/
theorem getUserId_null_when_absent_or_not_string (r : Request)
    (h : isStringSV (sessionGet (getUserSession r) "userId") = false) :
    getUserId r = none := by
  cases hv : sessionGet (getUserSession r) "userId" with
  | none => simp [getUserId, hv]
  | some v =>
    cases v with
    | vStr s => rw [hv] at h; simp [isStringSV] at h
    | vNum n => simp [getUserId, hv]
    | vBool b => simp [getUserId, hv]
    | vNull => simp [getUserId, hv]

theorem getUserId_null_when_absent_or_not_string_witness :
    isStringSV (sessionGet (getUserSession
      { pathname := "/p", cookie := some [("userId", SV.vNum 7)] }) "userId") =
        false ∧
    getUserId { pathname := "/p", cookie := some [("userId", SV.vNum 7)] } =
      none :=
  ⟨by decide, getUserId_null_when_absent_or_not_string
    { pathname := "/p", cookie := some [("userId", SV.vNum 7)] } (by decide)⟩

/-- C8: the module never mutates or deletes an existing `User` record:
a successful `register` only pushes a new record on top of the store, and
`login` and `getUser` (the only other operations that touch the store)
return it unchanged.  The remaining operations (`getUserId`,
`requiredUserId`, `createUserSession`, `logout`) take no store at all. -/
theorem user_store_never_mutated
    (form : LoginForm) (st : DbState) (r : Request) :
    (∀ res st', register form st = Except.ok (res, st') →
      ∃ nu, st'.users = nu :: st.users) ∧
    (login form st).2 = st ∧
    (getUser r st).2 = st := by
  refine ⟨?_, ?_, ?_⟩
  · intro res st' h
    unfold register userCreate at h
    by_cases hdup : st.users.any (fun u => u.username == form.username) = true
    · simp [hdup] at h
    · simp [hdup] at h
      obtain ⟨-, hst'⟩ := h
      exact ⟨_, by rw [← hst']⟩
  · rcases hf : findUniqueByUsername st form.username with _ | u
    · simp [login, hf]
    · simp only [login, hf]
      split <;> rfl
  · rcases hid : getUserId r with _ | uid
    · simp [getUser, hid]
    · rcases hfind : (List.find? (fun u => u.id == uid) st.users).map toView
        with _ | v <;> simp [getUser, hid, hfind]

theorem user_store_never_mutated_witness :
    (∃ nu, sampleStore.users = nu :: emptyStore.users) ∧
    (login sampleForm emptyStore).2 = emptyStore :=
  ⟨(user_store_never_mutated sampleForm emptyStore
      { pathname := "/p", cookie := none }).1 sampleView sampleStore rfl,
   (user_store_never_mutated sampleForm emptyStore
      { pathname := "/p", cookie := none }).2.1⟩

/-- C9: every identity the module returns is the `{ id, username }`
projection of a stored record, and that projection is independent of the
`passwordHash` field — so no returned value exposes the digest. -/
theorem results_never_expose_passwordHash
    (form : LoginForm) (st : DbState) (r : Request) :
    (∀ res st', register form st = Except.ok (res, st') →
      ∃ u, u ∈ st'.users ∧ res = toView u) ∧
    (∀ v, (login form st).1 = some v → ∃ u, u ∈ st.users ∧ v = toView u) ∧
    (∀ v, (getUser r st).1 = GetUserResult.value (some v) →
      ∃ u, u ∈ st.users ∧ v = toView u) ∧
    (∀ (u : User) (hash : String),
      toView { u with passwordHash := hash } = toView u) := by
  refine ⟨?_, ?_, ?_, fun u hash => rfl⟩
  · intro res st' h
    unfold register userCreate at h
    by_cases hdup : st.users.any (fun u => u.username == form.username) = true
    · simp [hdup] at h
    · simp [hdup] at h
      obtain ⟨hres, hst'⟩ := h
      refine ⟨_, by rw [← hst']; exact List.mem_cons_self _ _, ?_⟩
      rw [← hres]
      rfl
  · intro v h
    rcases hf : findUniqueByUsername st form.username with _ | u
    · simp [login, hf] at h
    · have hf' : List.find? (fun x => x.username == form.username) st.users =
        some u := hf
      have hmem : u ∈ st.users := List.mem_of_find?_eq_some hf'
      have hpred := List.find?_some hf'
      have hname : u.username = form.username := eq_of_beq hpred
      cases hc : bcryptCompare form.password u.passwordHash with
      | false => simp [login, hf, hc] at h
      | true =>
        simp [login, hf, hc] at h
        exact ⟨u, hmem, by simp [toView, ← h, hname]⟩
  · intro v h
    rcases hid : getUserId r with _ | uid
    · simp [getUser, hid] at h
    · rcases hfind : List.find? (fun u => u.id == uid) st.users with _ | u
      · simp [getUser, hid, hfind, logout] at h
      · have hmem : u ∈ st.users := List.mem_of_find?_eq_some hfind
        simp [getUser, hid, hfind] at h
        exact ⟨u, hmem, h.symm⟩

theorem results_never_expose_passwordHash_witness :
    (∃ u, u ∈ sampleStore.users ∧ sampleView = toView u) ∧
    toView { sampleUser with passwordHash := "other" } = toView sampleUser :=
  ⟨(results_never_expose_passwordHash sampleForm emptyStore
      { pathname := "/p", cookie := none }).1 sampleView sampleStore rfl,
   (results_never_expose_passwordHash sampleForm emptyStore
      { pathname := "/p", cookie := none }).2.2.2 sampleUser "other"⟩

/-- C10: a session whose `userId` field holds the empty string is treated
as absent: `getUserId` returns `null` and `requiredUserId` throws the
login redirect, so neither ever returns `""` as a user id. -/
theorem empty_string_userId_treated_as_absent (sess : Session) (p : String)
    (h : sessionGet sess "userId" = some (SV.vStr "")) :
    getUserId { pathname := p, cookie := some sess } = none ∧
    requiredUserId { pathname := p, cookie := some sess } =
      Except.error (redirect ("/login?redirectTo=" ++ formUrlEncode p) none) := by
  rw [← loginRedirectLocation]
  have hsession : getUserSession { pathname := p, cookie := some sess } = sess :=
    rfl
  exact ⟨by simp [getUserId, hsession, h],
    by simp [requiredUserId, hsession, h]⟩

theorem empty_string_userId_treated_as_absent_witness :
    getUserId { pathname := "/jokes", cookie := some [("userId", SV.vStr "")] } =
      none ∧
    requiredUserId { pathname := "/jokes", cookie := some [("userId", SV.vStr "")] } =
      Except.error (redirect ("/login?redirectTo=" ++ formUrlEncode "/jokes") none) :=
  empty_string_userId_treated_as_absent [("userId", SV.vStr "")] "/jokes"
    (by decide)

end RemixJokes
